import Mathlib

/-!
Verification of the Slackr single-page client (frontend JavaScript) against its
natural-language specification.  The relevant functions of the source are
shallowly embedded as pure Lean functions:

* browser local storage is a record of the two keys the client uses
  (slackr token and slackr user id);
* a network interaction is represented by the outcome the environment hands
  back to the pending fetch (network failure, or an HTTP response with its
  ok-flag, status, and JSON body);
* promise chains become explicit case analysis on those outcomes, and the
  user-visible side effects (error popups, notice popups, screen switches)
  are collected as explicit data.

JavaScript string trimming is modelled by stripping whitespace characters
from both ends of the character list, and JavaScript truthiness of an
optional string field is: present and non-empty.
-/

/-- Model of the JavaScript String.prototype.trim: strip leading and trailing
whitespace characters. -/
def jsTrim (s : String) : String :=
  String.mk (((s.data.dropWhile Char.isWhitespace).reverse.dropWhile Char.isWhitespace).reverse)

/-- Truthiness of an optional JSON string field: JavaScript treats a missing
field (undefined) and the empty string as falsy. -/
def truthyStr : Option String → Bool
  | none => false
  | some s => s != ""

/-- Model of the JavaScript expression e || d for an optional string field e:
the field when it is truthy, otherwise the default d. -/
def strOrElse (o : Option String) (d : String) : String :=
  if truthyStr o then o.getD d else d

/-! ## Transport adapter: apiCall (src/unnamed/part_001, lines 21-88) -/

/-- Parsed JSON body of a backend response: an optional error field plus the
rest of the payload, abstracted as a numeric tag. -/
structure Payload where
  error : Option String
  rest : Nat
  deriving DecidableEq, Repr

/-- Outcome the environment produces for a fetch call: either the fetch
itself rejects (network failure), or an HTTP response arrives with its
ok-flag (status in 200-299), its status code, and its body; the body is
some payload when response.json() parses, and none when parsing fails. -/
inductive FetchOutcome where
  | networkFailure
  | response (ok : Bool) (status : Nat) (body : Option Payload)
  deriving DecidableEq, Repr

/-- Settled state of the promise an apiCall returns. -/
inductive ApiOutcome where
  | resolved (data : Payload)
  | rejected (reason : String)
  deriving DecidableEq, Repr

/-- Result of running apiCall: the settled promise together with the list of
showError popups raised along the way, in order. -/
structure ApiRun where
  outcome : ApiOutcome
  errorsShown : List String
  deriving DecidableEq, Repr

/-- Embedding of apiCall from src/unnamed/part_001 (lines 51-87).  The
promise chain is
fetch(url).then(response => ...).then(data => ...).catch(error => ...),
where the first then, on a non-ok response, runs response.json(), chains a
then that shows data.error falling back to HTTP Error: s and deliberately
returns Promise.reject of data.error falling back to HTTP s, and chains a
catch that shows HTTP Error: s and returns Promise.reject of HTTP s.
Note that this inner catch is attached to the promise returned by the inner
then, so it also fires on the Promise.reject produced there.  A JSON parse
failure of response.json() rejects with a SyntaxError; in the ok-status
case that exception reaches the outer catch, where it matches neither the
TypeError test nor the Failed to fetch message, so the outer catch
re-throws it without calling showError: that rejection surfaces no popup. -/
def apiCall (f : FetchOutcome) : ApiRun :=
  match f with
  | .networkFailure =>
      { outcome := .rejected "Network error",
        errorsShown := ["Network error. Please check your connection and try again."] }
  | .response ok status body =>
      if ok then
        match body with
        | some data =>
            if truthyStr data.error then
              { outcome := .rejected (data.error.getD ""),
                errorsShown := [data.error.getD ""] }
            else
              { outcome := .resolved data, errorsShown := [] }
        | none =>
            { outcome := .rejected "SyntaxError", errorsShown := [] }
      else
        match body with
        | some data =>
            { outcome := .rejected ("HTTP " ++ toString status),
              errorsShown :=
                [strOrElse data.error ("HTTP Error: " ++ toString status),
                 "HTTP Error: " ++ toString status] }
        | none =>
            { outcome := .rejected ("HTTP " ++ toString status),
              errorsShown := ["HTTP Error: " ++ toString status] }

/-- An ApiRun counts as resolved when its promise settled fulfilled. -/
def ApiRun.isResolved (r : ApiRun) : Bool :=
  match r.outcome with
  | .resolved _ => true
  | .rejected _ => false

/-! ## Channel list rendering (src/frontend/src/channel.js, lines 89-132) -/

/-- Channel object as read by renderChannelList and createChannelElement:
only the id, the name and the private flag are consulted there. -/
structure Channel where
  id : Nat
  name : String
  «private» : Bool
  deriving DecidableEq, Repr

/-- DOM child appended to the channel-list container: a section header, a
channel element created by createChannelElement(channel, isPrivate), or the
empty-list message. -/
inductive ChannelNode where
  | header (title : String)
  | channelItem (ch : Channel) (isPrivate : Bool)
  | emptyMessage
  deriving DecidableEq, Repr

/-- Embedding of renderChannelList: filters the list into public and private
channels, renders a header plus the channel elements for each non-empty
group (public first), and an empty message when the list is empty. -/
def renderChannelList (channels : List Channel) : List ChannelNode :=
  let publicChannels := channels.filter (fun ch => !ch.«private»)
  let privateChannels := channels.filter (fun ch => ch.«private»)
  (if publicChannels.length > 0 then
      ChannelNode.header "Public Channels" ::
        publicChannels.map (fun ch => ChannelNode.channelItem ch false)
    else []) ++
  (if privateChannels.length > 0 then
      ChannelNode.header "Private Channels" ::
        privateChannels.map (fun ch => ChannelNode.channelItem ch true)
    else []) ++
  (if channels.length = 0 then [ChannelNode.emptyMessage] else [])

/-- Channels rendered into the Public Channels group (channel elements built
with isPrivate = false). -/
def publicItems (nodes : List ChannelNode) : List Channel :=
  nodes.filterMap (fun n =>
    match n with
    | ChannelNode.channelItem ch false => some ch
    | _ => none)

/-- Channels rendered into the Private Channels group (channel elements built
with isPrivate = true). -/
def privateItems (nodes : List ChannelNode) : List Channel :=
  nodes.filterMap (fun n =>
    match n with
    | ChannelNode.channelItem ch true => some ch
    | _ => none)

/-! ## Message rendering (src/frontend/src/channel_messages.js, lines 48-99) -/

/-- Reaction entry of a message. -/
structure React where
  react : String
  user : Nat
  deriving DecidableEq, Repr

/-- Message object as delivered by the backend and consumed by
renderMessages and createMessageElement. -/
structure Message where
  id : Nat
  sender : Nat
  message : Option String
  image : Option String
  sentAt : String
  edited : Bool
  editedAt : Option String
  pinned : Bool
  reacts : List React
  deriving DecidableEq, Repr

/-- DOM child produced while rendering the messages container: the
empty-channel notice, the pinned-section wrapper parts, or a message element
(createMessageElement with the pinned-section flag). -/
inductive MessageNode where
  | emptyNotice
  | pinnedHeader (count : Nat)
  | pinnedMsg (m : Message)
  | separator
  | regularMsg (m : Message)
  deriving DecidableEq, Repr

/-- Embedding of renderMessages: on an empty list renders the empty notice;
otherwise reverses the backend order (newest first becomes oldest first),
splits into pinned and regular messages, renders the pinned section (header,
pinned message elements, separator) when non-empty, then the regular message
elements. -/
def renderMessages (messages : List Message) : List MessageNode :=
  if messages.length = 0 then [MessageNode.emptyNotice]
  else
    let reversedMessages := messages.reverse
    let pinnedMessages := reversedMessages.filter (fun m => m.pinned)
    let regularMessages := reversedMessages.filter (fun m => !m.pinned)
    (if pinnedMessages.length > 0 then
        MessageNode.pinnedHeader pinnedMessages.length ::
          pinnedMessages.map MessageNode.pinnedMsg ++ [MessageNode.separator]
      else []) ++
    regularMessages.map MessageNode.regularMsg

/-- Messages rendered inside the pinned section. -/
def pinnedItems (nodes : List MessageNode) : List Message :=
  nodes.filterMap (fun n =>
    match n with
    | MessageNode.pinnedMsg m => some m
    | _ => none)

/-- Messages rendered in the regular (non-pinned) part of the container. -/
def regularItems (nodes : List MessageNode) : List Message :=
  nodes.filterMap (fun n =>
    match n with
    | MessageNode.regularMsg m => some m
    | _ => none)

/-! ## Local storage and session helpers (src/frontend/src/helpers.js) -/

/-- Browser local storage as used by the client: the token key and the
user-id key (localStorage stores strings; a missing key reads as null). -/
structure Storage where
  token : Option String
  userId : Option String
  deriving DecidableEq, Repr

/-- Embedding of isValidToken (helpers.js lines 66-71): the token is truthy,
differs from the literal strings null and undefined, and trims to a
non-empty string.  A null argument (missing key) is falsy. -/
def isValidToken : Option String → Bool
  | none => false
  | some t => (t != "") && (t != "null") && (t != "undefined") && (jsTrim t != "")

/-- Embedding of setToken (helpers.js lines 137-139). -/
def setToken (st : Storage) (t : String) : Storage :=
  { st with token := some t }

/-- Embedding of getToken (helpers.js lines 145-148): the raw stored value
when isValidToken accepts it, null otherwise. -/
def getToken (st : Storage) : Option String :=
  if isValidToken st.token then st.token else none

/-- Embedding of clearToken (helpers.js lines 153-155). -/
def clearToken (st : Storage) : Storage :=
  { st with token := none }

/-- Embedding of setUserId (helpers.js lines 161-163): localStorage.setItem
stringifies the numeric user id. -/
def setUserId (st : Storage) (userId : Nat) : Storage :=
  { st with userId := some (toString userId) }

/-- Embedding of clearUserId (helpers.js lines 177-179). -/
def clearUserId (st : Storage) : Storage :=
  { st with userId := none }

/-! ## Authentication flows (src/frontend/src/main.js) -/

/-- User-visible side effect raised by an authentication handler. -/
inductive Effect where
  | errorPopup (msg : String)
  | noticePopup (msg : String)
  | dashboardShown
  deriving DecidableEq, Repr

/-- Parsed JSON body of an auth endpoint response. -/
structure LoginData where
  error : Option String
  token : String
  userId : Nat
  deriving DecidableEq, Repr

/-- Outcome of the raw fetch issued by handleLogin / handleRegister: a
network failure, a response whose JSON body fails to parse, or a parsed
body. -/
inductive LoginFetch where
  | networkFailure
  | parseFailure
  | parsed (data : LoginData)
  deriving DecidableEq, Repr

/-- Embedding of handleLogin (main.js lines 55-96, current revision): after
client-side validation of the trimmed email and the password, the fetch
response either carries a truthy error field (showError, no storage write)
or the token and user id are stored and the dashboard is shown with a
success notice; fetch or parse failures only log. -/
def handleLogin (email password : String) (f : LoginFetch) (st : Storage) :
    Storage × List Effect :=
  if jsTrim email = "" then (st, [Effect.errorPopup "Email is required"])
  else if password = "" then (st, [Effect.errorPopup "Password is required"])
  else
    match f with
    | .networkFailure => (st, [])
    | .parseFailure => (st, [])
    | .parsed data =>
        if truthyStr data.error then
          (st, [Effect.errorPopup (data.error.getD "")])
        else
          (setUserId (setToken st data.token) data.userId,
           [Effect.dashboardShown, Effect.noticePopup "Login successful!"])

/-- Embedding of the superseded handleLogin revision (main.js lines 337-378):
same validation and same error-field branch, but fetch or parse failures
show a generic failure popup and success shows no notice. -/
def handleLoginLegacy (email password : String) (f : LoginFetch) (st : Storage) :
    Storage × List Effect :=
  if jsTrim email = "" then (st, [Effect.errorPopup "Email is required"])
  else if password = "" then (st, [Effect.errorPopup "Password is required"])
  else
    match f with
    | .networkFailure => (st, [Effect.errorPopup "Failed to login. Please try again."])
    | .parseFailure => (st, [Effect.errorPopup "Failed to login. Please try again."])
    | .parsed data =>
        if truthyStr data.error then
          (st, [Effect.errorPopup (data.error.getD "")])
        else
          (setUserId (setToken st data.token) data.userId, [Effect.dashboardShown])

/-- Result of the client-side part of handleRegister: either a validation
error popup raised before any fetch, or the network request issued to the
register endpoint with the given body. -/
inductive RegisterAction where
  | localError (msg : String)
  | networkRequest (email name password : String)
  deriving DecidableEq, Repr

/-- Embedding of the validation preamble of handleRegister (main.js lines
102-159): each required field is checked in order on the trimmed email and
name and the raw passwords, then the two password fields are compared;
only when all checks pass is the fetch to /auth/register issued. -/
def handleRegister (email name password confirmPassword : String) : RegisterAction :=
  let email := jsTrim email
  let name := jsTrim name
  if email = "" then RegisterAction.localError "Email is required"
  else if name = "" then RegisterAction.localError "Name is required"
  else if password = "" then RegisterAction.localError "Password is required"
  else if confirmPassword = "" then
    RegisterAction.localError "Password confirmation is required"
  else if password != confirmPassword then
    RegisterAction.localError "Passwords do not match!"
  else RegisterAction.networkRequest email name password

/-- True when the register handler stopped locally with an error popup. -/
def RegisterAction.isLocalError : RegisterAction → Bool
  | RegisterAction.localError _ => true
  | RegisterAction.networkRequest _ _ _ => false

/-- Screen the client switches to. -/
inductive Screen where
  | dashboard
  | authScreen
  deriving DecidableEq, Repr

/-- Embedding of handleLogout (main.js lines 164-191): the fetch to
/auth/logout is issued, and in the then branch as well as in the catch
branch (network failure or JSON parse failure) the token and the user id
are cleared and the auth screen is shown. -/
def handleLogout (f : FetchOutcome) (st : Storage) : Storage × Screen :=
  match f with
  | .networkFailure => (clearUserId (clearToken st), Screen.authScreen)
  | .response _ _ none => (clearUserId (clearToken st), Screen.authScreen)
  | .response _ _ (some _) => (clearUserId (clearToken st), Screen.authScreen)

/-- Embedding of init (main.js lines 243-282): with a valid stored token the
client validates it against GET /channel (response.ok shows the dashboard,
a non-ok response or a network failure clears both keys and shows the auth
screen); without a valid token both keys are cleared and the auth screen is
shown. -/
def init (st : Storage) (f : FetchOutcome) : Storage × Screen :=
  let token := getToken st
  if isValidToken token then
    match f with
    | .response true _ _ => (st, Screen.dashboard)
    | .response false _ _ => (clearUserId (clearToken st), Screen.authScreen)
    | .networkFailure => (clearUserId (clearToken st), Screen.authScreen)
  else
    (clearUserId (clearToken st), Screen.authScreen)

/-! ## Message editing (src/frontend/src/channel_messages.js, lines 391-420) -/

/-- Result of the client-side part of handleEditMessage: the prompt was
cancelled, a validation error popup was shown before any network call, or
the editMessage request was issued with the new content. -/
inductive EditAction where
  | cancelled
  | localError (msg : String)
  | editRequest (newContent : String)
  deriving DecidableEq, Repr

/-- Embedding of handleEditMessage: prompt returns null (cancel) or the new
text; the trimmed text must be non-empty and must differ from the existing
message content, otherwise an error popup is shown and the handler returns
before calling editMessage. -/
def handleEditMessage (existing : String) (promptResult : Option String) : EditAction :=
  match promptResult with
  | none => EditAction.cancelled
  | some newMessage =>
      let trimmedMessage := jsTrim newMessage
      if trimmedMessage = "" then EditAction.localError "Message cannot be empty"
      else if trimmedMessage = existing then
        EditAction.localError "Message must be different from the existing message"
      else EditAction.editRequest trimmedMessage

/-- True when the edit handler stopped locally with an error popup. -/
def EditAction.isLocalError : EditAction → Bool
  | EditAction.localError _ => true
  | _ => false

/-! ## Channel invites (src/unnamed/part_002, submitHandler lines 73-99) -/

/-- Embedding of inviteUserToChannel: a POST to /channel/:id/invite routed
through apiCall; the environment determines the fetch outcome for the
given channel and user. -/
def inviteUserToChannel (channelId userId : Nat) (f : FetchOutcome) : ApiRun :=
  apiCall f

/-- Result of running the invite submitHandler: the invite requests issued
(one user id each, in order), the success notice if shown, whether the
modal was closed, and all error popups raised. -/
structure InviteRun where
  requests : List Nat
  noticeShown : Option String
  modalClosed : Bool
  errorsShown : List String
  deriving DecidableEq, Repr

/-- Embedding of submitHandler: with no checked user an error popup is shown
and nothing is sent; otherwise one inviteUserToChannel call is issued per
checked user id, and Promise.all shows the success notice and closes the
modal only when every call resolves, while any rejection reaches only the
console (each rejected apiCall has already raised its own popups). -/
def submitHandler (channelId : Nat) (checked : List Nat)
    (fetchOf : Nat → FetchOutcome) : InviteRun :=
  if checked.length = 0 then
    { requests := [], noticeShown := none, modalClosed := false,
      errorsShown := ["Please select at least one user to invite"] }
  else
    let runs := checked.map (fun u => inviteUserToChannel channelId u (fetchOf u))
    if runs.all ApiRun.isResolved then
      { requests := checked,
        noticeShown := some ("Successfully invited " ++ toString checked.length ++ " user(s)"),
        modalClosed := true,
        errorsShown := runs.foldr (fun r acc => r.errorsShown ++ acc) [] }
    else
      { requests := checked, noticeShown := none, modalClosed := false,
        errorsShown := runs.foldr (fun r acc => r.errorsShown ++ acc) [] }

/-! ## File helper (src/frontend/src/helpers.js, fileToDataUrl lines 21-37) -/

/-- File object handed to fileToDataUrl: its MIME type and the data url the
FileReader would produce for its contents. -/
structure JsFile where
  type : String
  dataUrl : String
  deriving DecidableEq, Repr

/-- Settled state of the promise fileToDataUrl returns: resolved with the
data url, rejected with an Error carrying a message, or rejected with the
FileReader error event. -/
inductive FilePromise where
  | resolved (dataUrl : String)
  | rejectedErr (msg : String)
  | rejectedEvent
  deriving DecidableEq, Repr

/-- Result of calling a JavaScript function that may either return a value
or throw synchronously. -/
inductive CallResult (α : Type) where
  | returns (a : α)
  | throws (msg : String)
  deriving DecidableEq, Repr

/-- Accepted MIME types of fileToDataUrl. -/
def validFileTypes : List String := ["image/jpeg", "image/png", "image/jpg"]

/-- Embedding of fileToDataUrl: when the file type matches none of the
accepted types the function returns (not throws) a promise rejected with an
Error; otherwise it returns the FileReader promise, which resolves to the
data url on load and rejects with the error event when the read fails
(readerOk models whether the FileReader read succeeds). -/
def fileToDataUrl (file : JsFile) (readerOk : Bool) : CallResult FilePromise :=
  match validFileTypes.find? (fun t => t == file.type) with
  | none =>
      CallResult.returns (FilePromise.rejectedErr "provided file is not a png, jpg or jpeg image.")
  | some _ =>
      CallResult.returns
        (if readerOk then FilePromise.resolved file.dataUrl else FilePromise.rejectedEvent)

/-- Environment in which every invite request succeeds: HTTP 200 with an
error-free JSON body. -/
def allOkFetch : Nat → FetchOutcome :=
  fun _ => FetchOutcome.response true 200 (some { error := none, rest := 0 })

/-- Environment in which every invite request gets a 2xx response whose JSON
body fails to parse: apiCall rejects with the SyntaxError and shows no
popup. -/
def silentFetch : Nat → FetchOutcome :=
  fun _ => FetchOutcome.response true 200 none

/-! ## Helper lemmas -/

theorem publicItems_append (l1 l2 : List ChannelNode) :
    publicItems (l1 ++ l2) = publicItems l1 ++ publicItems l2 :=
  List.filterMap_append l1 l2 _

theorem privateItems_append (l1 l2 : List ChannelNode) :
    privateItems (l1 ++ l2) = privateItems l1 ++ privateItems l2 :=
  List.filterMap_append l1 l2 _

theorem publicItems_map_pub (l : List Channel) :
    publicItems (l.map (fun ch => ChannelNode.channelItem ch false)) = l := by
  induction l with
  | nil => rfl
  | cons x xs ih => simp only [List.map_cons, publicItems, List.filterMap_cons] at ih ⊢; rw [ih]

theorem publicItems_map_priv (l : List Channel) :
    publicItems (l.map (fun ch => ChannelNode.channelItem ch true)) = [] := by
  induction l with
  | nil => rfl
  | cons x xs ih => simp only [List.map_cons, publicItems, List.filterMap_cons] at ih ⊢; rw [ih]

theorem privateItems_map_pub (l : List Channel) :
    privateItems (l.map (fun ch => ChannelNode.channelItem ch false)) = [] := by
  induction l with
  | nil => rfl
  | cons x xs ih => simp only [List.map_cons, privateItems, List.filterMap_cons] at ih ⊢; rw [ih]

theorem privateItems_map_priv (l : List Channel) :
    privateItems (l.map (fun ch => ChannelNode.channelItem ch true)) = l := by
  induction l with
  | nil => rfl
  | cons x xs ih => simp only [List.map_cons, privateItems, List.filterMap_cons] at ih ⊢; rw [ih]

theorem publicItems_cons_header (t : String) (ns : List ChannelNode) :
    publicItems (ChannelNode.header t :: ns) = publicItems ns := rfl

theorem privateItems_cons_header (t : String) (ns : List ChannelNode) :
    privateItems (ChannelNode.header t :: ns) = privateItems ns := rfl

theorem publicItems_pubSection (t : String) (l : List Channel) :
    publicItems (if l.length > 0 then
        ChannelNode.header t :: l.map (fun ch => ChannelNode.channelItem ch false)
      else []) = l := by
  by_cases h : l.length > 0
  · rw [if_pos h, publicItems_cons_header, publicItems_map_pub]
  · have hl : l = [] := by
      rw [← List.length_eq_zero]; omega
    rw [if_neg h, hl]; rfl

theorem publicItems_privSection (t : String) (l : List Channel) :
    publicItems (if l.length > 0 then
        ChannelNode.header t :: l.map (fun ch => ChannelNode.channelItem ch true)
      else []) = [] := by
  by_cases h : l.length > 0
  · rw [if_pos h, publicItems_cons_header, publicItems_map_priv]
  · rw [if_neg h]; rfl

theorem privateItems_pubSection (t : String) (l : List Channel) :
    privateItems (if l.length > 0 then
        ChannelNode.header t :: l.map (fun ch => ChannelNode.channelItem ch false)
      else []) = [] := by
  by_cases h : l.length > 0
  · rw [if_pos h, privateItems_cons_header, privateItems_map_pub]
  · rw [if_neg h]; rfl

theorem privateItems_privSection (t : String) (l : List Channel) :
    privateItems (if l.length > 0 then
        ChannelNode.header t :: l.map (fun ch => ChannelNode.channelItem ch true)
      else []) = l := by
  by_cases h : l.length > 0
  · rw [if_pos h, privateItems_cons_header, privateItems_map_priv]
  · have hl : l = [] := by
      rw [← List.length_eq_zero]; omega
    rw [if_neg h, hl]; rfl

theorem publicItems_emptySection (c : Prop) [Decidable c] :
    publicItems (if c then [ChannelNode.emptyMessage] else []) = [] := by
  split <;> rfl

theorem privateItems_emptySection (c : Prop) [Decidable c] :
    privateItems (if c then [ChannelNode.emptyMessage] else []) = [] := by
  split <;> rfl

theorem publicItems_renderChannelList (channels : List Channel) :
    publicItems (renderChannelList channels) =
      channels.filter (fun ch => !ch.«private») := by
  unfold renderChannelList
  rw [publicItems_append, publicItems_append, publicItems_pubSection,
    publicItems_privSection, publicItems_emptySection, List.append_nil, List.append_nil]

theorem privateItems_renderChannelList (channels : List Channel) :
    privateItems (renderChannelList channels) =
      channels.filter (fun ch => ch.«private») := by
  unfold renderChannelList
  rw [privateItems_append, privateItems_append, privateItems_pubSection,
    privateItems_privSection, privateItems_emptySection, List.append_nil, List.nil_append]

theorem count_filter_add {α : Type} [DecidableEq α] (p : α → Bool) (a : α) (l : List α) :
    (l.filter p).count a + (l.filter (fun x => !p x)).count a = l.count a := by
  induction l with
  | nil => rfl
  | cons x xs ih =>
      by_cases hp : p x = true <;>
        simp [List.filter_cons, hp, List.count_cons] <;> omega

theorem pinnedItems_append (l1 l2 : List MessageNode) :
    pinnedItems (l1 ++ l2) = pinnedItems l1 ++ pinnedItems l2 :=
  List.filterMap_append l1 l2 _

theorem regularItems_append (l1 l2 : List MessageNode) :
    regularItems (l1 ++ l2) = regularItems l1 ++ regularItems l2 :=
  List.filterMap_append l1 l2 _

theorem pinnedItems_map_pinned (l : List Message) :
    pinnedItems (l.map MessageNode.pinnedMsg) = l := by
  induction l with
  | nil => rfl
  | cons x xs ih => simp only [List.map_cons, pinnedItems, List.filterMap_cons] at ih ⊢; rw [ih]

theorem pinnedItems_map_regular (l : List Message) :
    pinnedItems (l.map MessageNode.regularMsg) = [] := by
  induction l with
  | nil => rfl
  | cons x xs ih => simp only [List.map_cons, pinnedItems, List.filterMap_cons] at ih ⊢; rw [ih]

theorem regularItems_map_pinned (l : List Message) :
    regularItems (l.map MessageNode.pinnedMsg) = [] := by
  induction l with
  | nil => rfl
  | cons x xs ih => simp only [List.map_cons, regularItems, List.filterMap_cons] at ih ⊢; rw [ih]

theorem regularItems_map_regular (l : List Message) :
    regularItems (l.map MessageNode.regularMsg) = l := by
  induction l with
  | nil => rfl
  | cons x xs ih => simp only [List.map_cons, regularItems, List.filterMap_cons] at ih ⊢; rw [ih]

theorem pinnedItems_pinnedSection (k : Nat) (l : List Message) :
    pinnedItems (if l.length > 0 then
        MessageNode.pinnedHeader k :: l.map MessageNode.pinnedMsg ++ [MessageNode.separator]
      else []) = l := by
  by_cases h : l.length > 0
  · rw [if_pos h]
    show pinnedItems (l.map MessageNode.pinnedMsg ++ [MessageNode.separator]) = l
    rw [pinnedItems_append, pinnedItems_map_pinned,
      show pinnedItems [MessageNode.separator] = [] from rfl, List.append_nil]
  · have hl : l = [] := by
      rw [← List.length_eq_zero]; omega
    rw [if_neg h, hl]; rfl

theorem regularItems_pinnedSection (k : Nat) (l : List Message) :
    regularItems (if l.length > 0 then
        MessageNode.pinnedHeader k :: l.map MessageNode.pinnedMsg ++ [MessageNode.separator]
      else []) = [] := by
  by_cases h : l.length > 0
  · rw [if_pos h]
    show regularItems (l.map MessageNode.pinnedMsg ++ [MessageNode.separator]) = []
    rw [regularItems_append, regularItems_map_pinned]; rfl
  · rw [if_neg h]; rfl

theorem pinnedItems_renderMessages (messages : List Message) :
    pinnedItems (renderMessages messages) =
      messages.reverse.filter (fun m => m.pinned) := by
  unfold renderMessages
  by_cases h0 : messages.length = 0
  · have hm : messages = [] := by rwa [List.length_eq_zero] at h0
    rw [if_pos h0, hm]; rfl
  · rw [if_neg h0, pinnedItems_append, pinnedItems_pinnedSection,
      pinnedItems_map_regular, List.append_nil]

theorem regularItems_renderMessages (messages : List Message) :
    regularItems (renderMessages messages) =
      messages.reverse.filter (fun m => !m.pinned) := by
  unfold renderMessages
  by_cases h0 : messages.length = 0
  · have hm : messages = [] := by rwa [List.length_eq_zero] at h0
    rw [if_pos h0, hm]; rfl
  · rw [if_neg h0, regularItems_append, regularItems_pinnedSection,
      regularItems_map_regular, List.nil_append]

/-! ## Claim theorems -/

/-- Claim C1 (code bug evidence): on a non-2xx HTTP response whose JSON body
carries the application error message Invalid token with status 403, apiCall
does surface the application message, but the inner catch fires on the
deliberate Promise.reject of the inner then, so a second generic popup
HTTP Error: 403 is also shown and the promise is rejected with HTTP 403
instead of the application error message, contradicting the claim that the
rejection reason is the parseable application error message verbatim. -/
theorem apiCall_non2xx_rejects_with_status :
    apiCall (FetchOutcome.response false 403 (some { error := some "Invalid token", rest := 0 })) =
      { outcome := ApiOutcome.rejected "HTTP 403",
        errorsShown := ["Invalid token", "HTTP Error: 403"] } := by
  decide

/-- Claim C2: renderChannelList places every channel of the input list in
exactly one of the two groups (the Public Channels group when its private
field is false, the Private Channels group when it is true), renders no
channel twice, and on the concrete input list of the claim the public group
contains only channel 1 and the private group only channel 2. -/
theorem renderChannelList_partitions (channels : List Channel) :
    (∀ ch ∈ channels, ch.«private» = false →
        ch ∈ publicItems (renderChannelList channels) ∧
        ch ∉ privateItems (renderChannelList channels)) ∧
    (∀ ch ∈ channels, ch.«private» = true →
        ch ∈ privateItems (renderChannelList channels) ∧
        ch ∉ publicItems (renderChannelList channels)) ∧
    (∀ ch : Channel,
        (publicItems (renderChannelList channels)).count ch +
          (privateItems (renderChannelList channels)).count ch = channels.count ch) ∧
    publicItems (renderChannelList
        [{ id := 1, name := "general", «private» := false },
         { id := 2, name := "secret", «private» := true }]) =
      [{ id := 1, name := "general", «private» := false }] ∧
    privateItems (renderChannelList
        [{ id := 1, name := "general", «private» := false },
         { id := 2, name := "secret", «private» := true }]) =
      [{ id := 2, name := "secret", «private» := true }] := by
  rw [publicItems_renderChannelList, privateItems_renderChannelList,
    publicItems_renderChannelList, privateItems_renderChannelList]
  refine ⟨?_, ?_, ?_, by decide, by decide⟩
  · intro ch hch hpub
    constructor
    · exact List.mem_filter.mpr ⟨hch, by simp [hpub]⟩
    · intro hmem
      have := (List.mem_filter.mp hmem).2
      rw [hpub] at this
      exact Bool.false_ne_true this
  · intro ch hch hpriv
    constructor
    · exact List.mem_filter.mpr ⟨hch, by simp [hpriv]⟩
    · intro hmem
      have := (List.mem_filter.mp hmem).2
      rw [hpriv] at this
      simp at this
  · intro ch
    rw [Nat.add_comm]
    exact count_filter_add (fun c => c.«private») ch channels

/-- Witness for claim C2: at the concrete channel list of the claim, channel
general is rendered in the public group and not in the private group. -/
theorem renderChannelList_partitions_witness :
    ({ id := 1, name := "general", «private» := false } : Channel) ∈
        publicItems (renderChannelList
          [{ id := 1, name := "general", «private» := false },
           { id := 2, name := "secret", «private» := true }]) ∧
    ({ id := 1, name := "general", «private» := false } : Channel) ∉
        privateItems (renderChannelList
          [{ id := 1, name := "general", «private» := false },
           { id := 2, name := "secret", «private» := true }]) :=
  (renderChannelList_partitions
      [{ id := 1, name := "general", «private» := false },
       { id := 2, name := "secret", «private» := true }]).1
    { id := 1, name := "general", «private» := false } (by decide) rfl

/-- Claim C3: renderMessages places every message whose pinned field is true
in the pinned section, every message whose pinned field is false only in
the regular section, no message appears in both sections, and every message
is rendered exactly once. -/
theorem renderMessages_partitions (messages : List Message) :
    (∀ m ∈ messages, m.pinned = true →
        m ∈ pinnedItems (renderMessages messages) ∧
        m ∉ regularItems (renderMessages messages)) ∧
    (∀ m ∈ messages, m.pinned = false →
        m ∈ regularItems (renderMessages messages) ∧
        m ∉ pinnedItems (renderMessages messages)) ∧
    (∀ m : Message,
        (pinnedItems (renderMessages messages)).count m +
          (regularItems (renderMessages messages)).count m = messages.count m) := by
  rw [pinnedItems_renderMessages, regularItems_renderMessages]
  refine ⟨?_, ?_, ?_⟩
  · intro m hm hpin
    constructor
    · exact List.mem_filter.mpr ⟨List.mem_reverse.mpr hm, by simp [hpin]⟩
    · intro hmem
      have := (List.mem_filter.mp hmem).2
      rw [hpin] at this
      simp at this
  · intro m hm hpin
    constructor
    · exact List.mem_filter.mpr ⟨List.mem_reverse.mpr hm, by simp [hpin]⟩
    · intro hmem
      have := (List.mem_filter.mp hmem).2
      rw [hpin] at this
      exact Bool.false_ne_true this
  · intro m
    rw [count_filter_add (fun x => x.pinned) m messages.reverse]
    exact List.count_reverse m messages

/-- Witness for claim C3: in a two-message list with one pinned and one
regular message, the pinned one is rendered in the pinned section and not in
the regular section. -/
theorem renderMessages_partitions_witness :
    ({ id := 1, sender := 2, message := some "hello", image := none, sentAt := "t1",
       edited := false, editedAt := none, pinned := true, reacts := [] } : Message) ∈
        pinnedItems (renderMessages
          [{ id := 1, sender := 2, message := some "hello", image := none, sentAt := "t1",
             edited := false, editedAt := none, pinned := true, reacts := [] },
           { id := 2, sender := 3, message := some "hi", image := none, sentAt := "t2",
             edited := false, editedAt := none, pinned := false, reacts := [] }]) ∧
    ({ id := 1, sender := 2, message := some "hello", image := none, sentAt := "t1",
       edited := false, editedAt := none, pinned := true, reacts := [] } : Message) ∉
        regularItems (renderMessages
          [{ id := 1, sender := 2, message := some "hello", image := none, sentAt := "t1",
             edited := false, editedAt := none, pinned := true, reacts := [] },
           { id := 2, sender := 3, message := some "hi", image := none, sentAt := "t2",
             edited := false, editedAt := none, pinned := false, reacts := [] }]) :=
  (renderMessages_partitions
      [{ id := 1, sender := 2, message := some "hello", image := none, sentAt := "t1",
         edited := false, editedAt := none, pinned := true, reacts := [] },
       { id := 2, sender := 3, message := some "hi", image := none, sentAt := "t2",
         edited := false, editedAt := none, pinned := false, reacts := [] }]).1
    { id := 1, sender := 2, message := some "hello", image := none, sentAt := "t1",
      edited := false, editedAt := none, pinned := true, reacts := [] }
    (by decide) rfl

/-- Claim C4: when the login backend responds with a non-empty error field
(mismatched credentials), neither revision of handleLogin writes the token
or the user id: local storage is returned unchanged. -/
theorem handleLogin_error_keeps_storage (email password : String) (data : LoginData)
    (st : Storage) (e : String) (he : data.error = some e) (hne : e ≠ "") :
    (handleLogin email password (LoginFetch.parsed data) st).1 = st ∧
    (handleLoginLegacy email password (LoginFetch.parsed data) st).1 = st := by
  have ht : truthyStr data.error = true := by
    simp [truthyStr, he, hne]
  unfold handleLogin handleLoginLegacy
  by_cases h1 : jsTrim email = "" <;> by_cases h2 : password = "" <;>
    simp [h1, h2, ht]

/-- Witness for claim C4: a concrete login attempt rejected by the backend
with Invalid email or password leaves an empty local storage empty. -/
theorem handleLogin_error_keeps_storage_witness :
    (handleLogin "a@b.c" "pw"
        (LoginFetch.parsed { error := some "Invalid email or password", token := "tok", userId := 7 })
        { token := none, userId := none }).1 =
      { token := none, userId := none } :=
  (handleLogin_error_keeps_storage "a@b.c" "pw"
      { error := some "Invalid email or password", token := "tok", userId := 7 }
      { token := none, userId := none } "Invalid email or password" rfl (by decide)).1

/-- Claim C5: whenever the two password fields differ or any required
registration field is empty, handleRegister stops with a local error popup
and never issues the network request to the register endpoint. -/
theorem handleRegister_validation_blocks (email name password confirmPassword : String)
    (h : jsTrim email = "" ∨ jsTrim name = "" ∨ password = "" ∨ confirmPassword = "" ∨
        password ≠ confirmPassword) :
    (handleRegister email name password confirmPassword).isLocalError = true := by
  unfold handleRegister
  by_cases h1 : jsTrim email = "" <;> by_cases h2 : jsTrim name = "" <;>
    by_cases h3 : password = "" <;> by_cases h4 : confirmPassword = "" <;>
      by_cases h5 : password = confirmPassword <;>
        simp [h1, h2, h3, h4, h5, RegisterAction.isLocalError] <;> tauto

/-- Witness for claim C5: a concrete submission whose confirmation field
differs from the password is stopped locally. -/
theorem handleRegister_validation_blocks_witness :
    (handleRegister "a@b.c" "Ann" "pw1" "pw2").isLocalError = true :=
  handleRegister_validation_blocks "a@b.c" "Ann" "pw1" "pw2" (by decide)

/-- Claim C6: when the trimmed new content equals the existing message
content, or is empty, handleEditMessage stops with a local error popup and
never calls editMessage. -/
theorem handleEditMessage_blocks_same_or_empty (existing newRaw : String)
    (h : jsTrim newRaw = existing ∨ jsTrim newRaw = "") :
    (handleEditMessage existing (some newRaw)).isLocalError = true := by
  rcases h with h | h
  · by_cases he : existing = "" <;>
      simp [handleEditMessage, h, he, EditAction.isLocalError]
  · simp [handleEditMessage, h, EditAction.isLocalError]

/-- Witness for claim C6: re-entering the existing content (up to trimming)
is stopped locally. -/
theorem handleEditMessage_blocks_same_or_empty_witness :
    (handleEditMessage "hi" (some " hi ")).isLocalError = true :=
  handleEditMessage_blocks_same_or_empty "hi" " hi " (by decide)

theorem apiCall_rejected_errors_ne_nil (f : FetchOutcome)
    (hr : (apiCall f).isResolved = false)
    (hnp : ∀ status, f ≠ FetchOutcome.response true status none) :
    (apiCall f).errorsShown ≠ [] := by
  cases f with
  | networkFailure => simp [apiCall]
  | response ok status body =>
      cases ok with
      | false => cases body <;> simp [apiCall]
      | true =>
          cases body with
          | none => exact absurd rfl (hnp status)
          | some data =>
              by_cases ht : truthyStr data.error = true <;>
                simp [apiCall, ApiRun.isResolved, ht] at hr ⊢

theorem foldr_errors_ne_nil (runs : List ApiRun) (r : ApiRun) (hr : r ∈ runs)
    (h : r.errorsShown ≠ []) :
    runs.foldr (fun x acc => x.errorsShown ++ acc) [] ≠ [] := by
  induction runs with
  | nil => cases hr
  | cons x xs ih =>
      intro hc
      rw [List.foldr_cons, List.append_eq_nil] at hc
      rcases List.mem_cons.mp hr with rfl | hmem
      · exact h hc.1
      · exact ih hmem hc.2

theorem all_map_resolved_iff (channelId : Nat) (checked : List Nat)
    (fetchOf : Nat → FetchOutcome) :
    ((checked.map (fun u => inviteUserToChannel channelId u (fetchOf u))).all
        ApiRun.isResolved = true) ↔
      ∀ u ∈ checked, (inviteUserToChannel channelId u (fetchOf u)).isResolved = true := by
  induction checked with
  | nil => simp
  | cons x xs ih => simp [List.map_cons, List.all_cons, ih]

/-- Claim C7, amended: with N selected users (N at least 1) the invite
submit handler issues exactly one invite request per selected user id,
shows the success notice and closes the modal exactly when all N calls
resolve, and on any single rejection shows no success notice and keeps the
modal open; an error popup has been surfaced by the transport layer for any
rejection except one caused by a 2xx invite response whose JSON body fails
to parse, a rejection the outer catch of apiCall re-throws silently. -/
theorem submitHandler_all_or_nothing (channelId : Nat) (checked : List Nat)
    (fetchOf : Nat → FetchOutcome) (hne : checked ≠ []) :
    (submitHandler channelId checked fetchOf).requests = checked ∧
    ((submitHandler channelId checked fetchOf).noticeShown.isSome = true ↔
        ∀ u ∈ checked, (inviteUserToChannel channelId u (fetchOf u)).isResolved = true) ∧
    ((submitHandler channelId checked fetchOf).modalClosed = true ↔
        ∀ u ∈ checked, (inviteUserToChannel channelId u (fetchOf u)).isResolved = true) ∧
    ((∃ u ∈ checked, (inviteUserToChannel channelId u (fetchOf u)).isResolved = false) →
        (submitHandler channelId checked fetchOf).noticeShown = none ∧
        (submitHandler channelId checked fetchOf).modalClosed = false) ∧
    ((∃ u ∈ checked, (inviteUserToChannel channelId u (fetchOf u)).isResolved = false ∧
          ∀ status, fetchOf u ≠ FetchOutcome.response true status none) →
        (submitHandler channelId checked fetchOf).errorsShown ≠ []) := by
  have hlen : ¬(checked.length = 0) := by
    simpa [List.length_eq_zero] using hne
  by_cases hall : (checked.map (fun u => inviteUserToChannel channelId u (fetchOf u))).all
      ApiRun.isResolved = true
  · have hres : submitHandler channelId checked fetchOf =
        { requests := checked,
          noticeShown :=
            some ("Successfully invited " ++ toString checked.length ++ " user(s)"),
          modalClosed := true,
          errorsShown :=
            (checked.map (fun u => inviteUserToChannel channelId u (fetchOf u))).foldr
              (fun r acc => r.errorsShown ++ acc) [] } := by
      simp [submitHandler, hlen, hall]
    have hforall := (all_map_resolved_iff channelId checked fetchOf).mp hall
    rw [hres]
    refine ⟨rfl, Iff.intro (fun _ => hforall) (fun _ => rfl),
      Iff.intro (fun _ => hforall) (fun _ => rfl), ?_, ?_⟩
    · rintro ⟨u, hu, hru⟩
      have hres2 := hforall u hu
      rw [hres2] at hru
      exact absurd hru (by decide)
    · rintro ⟨u, hu, hru, -⟩
      have hres2 := hforall u hu
      rw [hres2] at hru
      exact absurd hru (by decide)
  · have hres : submitHandler channelId checked fetchOf =
        { requests := checked,
          noticeShown := none,
          modalClosed := false,
          errorsShown :=
            (checked.map (fun u => inviteUserToChannel channelId u (fetchOf u))).foldr
              (fun r acc => r.errorsShown ++ acc) [] } := by
      simp [submitHandler, hlen, hall]
    rw [hres]
    refine ⟨rfl, ?_, ?_, ?_, ?_⟩
    · constructor
      · intro hc; simp at hc
      · intro hforall
        exact absurd ((all_map_resolved_iff channelId checked fetchOf).mpr hforall) hall
    · constructor
      · intro hc; simp at hc
      · intro hforall
        exact absurd ((all_map_resolved_iff channelId checked fetchOf).mpr hforall) hall
    · rintro ⟨u, hu, hru⟩
      exact ⟨rfl, rfl⟩
    · rintro ⟨u, hu, hru, hnp⟩
      apply foldr_errors_ne_nil _ (inviteUserToChannel channelId u (fetchOf u))
      · exact List.mem_map_of_mem _ hu
      · exact apiCall_rejected_errors_ne_nil (fetchOf u) hru hnp

/-- Witness for claim C7: inviting the two users 2 and 3 in an environment
where every invite resolves issues exactly those two requests, shows the
success notice and closes the modal. -/
theorem submitHandler_all_or_nothing_witness :
    (submitHandler 1 [2, 3] allOkFetch).requests = [2, 3] ∧
    (submitHandler 1 [2, 3] allOkFetch).noticeShown.isSome = true ∧
    (submitHandler 1 [2, 3] allOkFetch).modalClosed = true := by
  have H := submitHandler_all_or_nothing 1 [2, 3] allOkFetch (by decide)
  exact ⟨H.1, (H.2.1).mpr (by decide), (H.2.2.1).mpr (by decide)⟩

/-- Counterexample for claim C7 as stated: inviting the single user 2 in an
environment where the invite endpoint answers 2xx with an unparseable JSON
body, the invite call rejects (so the claim requires an error to be
surfaced), no success notice is shown and the modal stays open, yet no
error popup at all is surfaced: the SyntaxError from response.json() is
re-thrown by the outer catch of apiCall without a popup, and the catch of
submitHandler only logs to the console. -/
theorem submitHandler_silent_rejection_counterexample :
    (inviteUserToChannel 1 2 (silentFetch 2)).isResolved = false ∧
    (submitHandler 1 [2] silentFetch).noticeShown = none ∧
    (submitHandler 1 [2] silentFetch).modalClosed = false ∧
    (submitHandler 1 [2] silentFetch).errorsShown = [] := by
  decide

/-- Claim C8: every logout attempt, whatever the fetch outcome, clears both
local-storage session keys and shows the auth screen; and every startup
token validation that does not succeed (no valid stored token, a non-ok
validation response, or a network failure) also clears both keys and shows
the auth screen. -/
theorem session_cleared_on_logout_and_auth_failure (st : Storage) (f : FetchOutcome) :
    (handleLogout f st).1.token = none ∧
    (handleLogout f st).1.userId = none ∧
    (handleLogout f st).2 = Screen.authScreen ∧
    (¬(isValidToken (getToken st) = true ∧
          ∃ status body, f = FetchOutcome.response true status body) →
        (init st f).1.token = none ∧ (init st f).1.userId = none ∧
        (init st f).2 = Screen.authScreen) := by
  refine ⟨?_, ?_, ?_, ?_⟩
  · cases f with
    | networkFailure => rfl
    | response ok status body => cases body <;> rfl
  · cases f with
    | networkFailure => rfl
    | response ok status body => cases body <;> rfl
  · cases f with
    | networkFailure => rfl
    | response ok status body => cases body <;> rfl
  · intro h
    by_cases hv : isValidToken (getToken st) = true
    · cases f with
      | networkFailure => simp [init, hv, clearToken, clearUserId]
      | response ok status body =>
          cases ok with
          | true => exact absurd ⟨hv, status, body, rfl⟩ h
          | false => simp [init, hv, clearToken, clearUserId]
    · have hv2 : isValidToken (getToken st) = false := by
        rwa [Bool.not_eq_true] at hv
      simp [init, hv2, clearToken, clearUserId]

/-- Witness for claim C8: a startup with a stored token but a network
failure during validation clears both keys and shows the auth screen. -/
theorem session_cleared_on_logout_and_auth_failure_witness :
    (init { token := some "tok", userId := some "5" } FetchOutcome.networkFailure).1.token =
        none ∧
    (init { token := some "tok", userId := some "5" } FetchOutcome.networkFailure).1.userId =
        none ∧
    (init { token := some "tok", userId := some "5" } FetchOutcome.networkFailure).2 =
        Screen.authScreen :=
  (session_cleared_on_logout_and_auth_failure
      { token := some "tok", userId := some "5" } FetchOutcome.networkFailure).2.2.2
    (by rintro ⟨-, status, body, hcontra⟩; cases hcontra)

/-- Claim C9: getToken returns the stored token string exactly when it is a
non-empty, non-whitespace string different from the literal strings null
and undefined, and returns null in every other case, including an absent
key. -/
theorem getToken_filters_invalid (t : String) (u : Option String) :
    ((t ≠ "" ∧ jsTrim t ≠ "" ∧ t ≠ "null" ∧ t ≠ "undefined") →
        getToken { token := some t, userId := u } = some t) ∧
    (¬(t ≠ "" ∧ jsTrim t ≠ "" ∧ t ≠ "null" ∧ t ≠ "undefined") →
        getToken { token := some t, userId := u } = none) ∧
    getToken { token := none, userId := u } = none := by
  refine ⟨?_, ?_, by simp [getToken, isValidToken]⟩
  · rintro ⟨h1, h2, h3, h4⟩
    simp [getToken, isValidToken, h1, h2, h3, h4]
  · intro h
    by_cases hb : isValidToken (some t) = true
    · exfalso
      apply h
      simp only [isValidToken, Bool.and_eq_true, bne_iff_ne] at hb
      exact ⟨hb.1.1.1, hb.2, hb.1.1.2, hb.1.2⟩
    · have hb2 : isValidToken (some t) = false := by
        rwa [Bool.not_eq_true] at hb
      simp [getToken, hb2]

/-- Witness for claim C9: the stored string tok is returned as is, while the
stored literal string null reads as no token. -/
theorem getToken_filters_invalid_witness :
    getToken { token := some "tok", userId := none } = some "tok" ∧
    getToken { token := some "null", userId := none } = none :=
  ⟨(getToken_filters_invalid "tok" none).1 (by decide),
   (getToken_filters_invalid "null" none).2.1 (by decide)⟩

/-- Claim C10: fileToDataUrl never throws synchronously; for a file whose
MIME type is none of image/jpeg, image/png, image/jpg it returns a promise
rejected with an Error saying the file is not a png, jpg or jpeg image, and
for a file of an accepted type whose read succeeds it returns a promise
resolving to the file data url. -/
theorem fileToDataUrl_rejects_bad_type (file : JsFile) (readerOk : Bool) :
    (∃ p, fileToDataUrl file readerOk = CallResult.returns p) ∧
    ((file.type ≠ "image/jpeg" ∧ file.type ≠ "image/png" ∧ file.type ≠ "image/jpg") →
        fileToDataUrl file readerOk =
          CallResult.returns
            (FilePromise.rejectedErr "provided file is not a png, jpg or jpeg image.")) ∧
    ((file.type = "image/jpeg" ∨ file.type = "image/png" ∨ file.type = "image/jpg") →
        readerOk = true →
        fileToDataUrl file readerOk = CallResult.returns (FilePromise.resolved file.dataUrl)) := by
  refine ⟨?_, ?_, ?_⟩
  · unfold fileToDataUrl
    cases hf : validFileTypes.find? (fun t => t == file.type) with
    | none => exact ⟨_, rfl⟩
    | some v => exact ⟨_, rfl⟩
  · rintro ⟨h1, h2, h3⟩
    have e1 : (("image/jpeg" : String) == file.type) = false := by
      rw [beq_eq_false_iff_ne]
      exact fun hc => h1 hc.symm
    have e2 : (("image/png" : String) == file.type) = false := by
      rw [beq_eq_false_iff_ne]
      exact fun hc => h2 hc.symm
    have e3 : (("image/jpg" : String) == file.type) = false := by
      rw [beq_eq_false_iff_ne]
      exact fun hc => h3 hc.symm
    simp only [fileToDataUrl, validFileTypes, List.find?, e1, e2, e3]
  · intro h hro
    subst hro
    rcases h with h | h | h <;>
      simp [fileToDataUrl, validFileTypes, List.find?, h]

/-- Witness for claim C10: a plain-text file is rejected with the Error
message, and a png file whose read succeeds resolves to its data url. -/
theorem fileToDataUrl_rejects_bad_type_witness :
    fileToDataUrl { type := "text/plain", dataUrl := "d" } true =
        CallResult.returns
          (FilePromise.rejectedErr "provided file is not a png, jpg or jpeg image.") ∧
    fileToDataUrl { type := "image/png", dataUrl := "data:image/png;base64,AAA" } true =
        CallResult.returns (FilePromise.resolved "data:image/png;base64,AAA") :=
  ⟨(fileToDataUrl_rejects_bad_type { type := "text/plain", dataUrl := "d" } true).2.1
      (by decide),
   (fileToDataUrl_rejects_bad_type
      { type := "image/png", dataUrl := "data:image/png;base64,AAA" } true).2.2
      (by decide) rfl⟩
